import Mathlib

/-!
Verification of the food-delivery order-management core
(src/2023101050/q1/src/cli.py) against its natural-language
specification.

Modelling conventions:
* Python dicts are association lists (key order = insertion order, which
  matches dict iteration order); assignment replaces in place or appends.
* Python objects of class MenuItem live on a heap addressed by Nat: an
  OrderItem stores the object reference (address) exactly as the source
  stores a reference to the shared MenuItem object, not a copy.
* datetimes are Int minutes since an epoch; times-of-day used by
  update_estimated_delivery_time are Nat microseconds since midnight
  (datetime.time comparison includes seconds and microseconds).
* float prices are idealized as rationals; none of the checked claims
  depends on rounding.
* DataStore.load_data and save_data re-read / re-write the very state the
  single process already holds, so both are the identity here; the file
  lock only serializes writers and has no effect on a single caller.
* a raised exception that escapes a method, or one caught after a partial
  mutation, is made explicit in each operation result type.
-/

namespace FoodDelivery

/-- Association-list lookup: first binding of the key (Python dict read). -/
def alookup {κ α : Type} [DecidableEq κ] : List (κ × α) → κ → Option α
  | [], _ => none
  | (k, v) :: rest, key => if key = k then some v else alookup rest key

/-- In-place mutation of the object stored under a key, as a Python
statement obj = d[k]; obj.field = x mutates the stored object. -/
def aupdate {κ α : Type} [DecidableEq κ] (l : List (κ × α)) (key : κ) (f : α → α) :
    List (κ × α) :=
  match l with
  | [] => []
  | (k, v) :: rest => if k = key then (k, f v) :: rest else (k, v) :: aupdate rest key f

/-- Python dict assignment d[k] = v: replace in place if present, else append. -/
def ainsert {κ α : Type} [DecidableEq κ] (l : List (κ × α)) (key : κ) (v : α) :
    List (κ × α) :=
  match l with
  | [] => [(key, v)]
  | (k, w) :: rest => if k = key then (k, v) :: rest else (k, w) :: ainsert rest key v

theorem alookup_aupdate_self {κ α : Type} [DecidableEq κ]
    (l : List (κ × α)) (key : κ) (f : α → α) :
    alookup (aupdate l key f) key = (alookup l key).map f := by
  induction l with
  | nil => rfl
  | cons p rest ih =>
    obtain ⟨k, v⟩ := p
    by_cases hk : k = key
    · subst hk
      simp [aupdate, alookup]
    · have hk' : ¬ key = k := fun h => hk h.symm
      simp [aupdate, alookup, hk, hk', ih]

theorem alookup_aupdate_ne {κ α : Type} [DecidableEq κ]
    (l : List (κ × α)) (key key' : κ) (f : α → α) (h : key' ≠ key) :
    alookup (aupdate l key f) key' = alookup l key' := by
  induction l with
  | nil => rfl
  | cons p rest ih =>
    obtain ⟨k, v⟩ := p
    by_cases hk : k = key
    · subst hk
      simp [aupdate, alookup, h]
    · by_cases hk' : key' = k
      · subst hk'
        simp [aupdate, alookup, hk]
      · simp [aupdate, alookup, hk, hk', ih]

theorem alookup_aupdate {κ α : Type} [DecidableEq κ]
    (l : List (κ × α)) (key key' : κ) (f : α → α) :
    alookup (aupdate l key f) key' =
      if key' = key then (alookup l key).map f else alookup l key' := by
  by_cases h : key' = key
  · subst h; simp [alookup_aupdate_self]
  · simp [h, alookup_aupdate_ne _ _ _ _ h]

theorem alookup_ainsert_self {κ α : Type} [DecidableEq κ]
    (l : List (κ × α)) (key : κ) (v : α) :
    alookup (ainsert l key v) key = some v := by
  induction l with
  | nil => simp [ainsert, alookup]
  | cons p rest ih =>
    obtain ⟨k, w⟩ := p
    by_cases hk : k = key
    · subst hk
      simp [ainsert, alookup]
    · have hk' : ¬ key = k := fun h => hk h.symm
      simp [ainsert, alookup, hk, hk', ih]

theorem alookup_ainsert_ne {κ α : Type} [DecidableEq κ]
    (l : List (κ × α)) (key key' : κ) (v : α) (h : key' ≠ key) :
    alookup (ainsert l key v) key' = alookup l key' := by
  induction l with
  | nil => simp [ainsert, alookup, h]
  | cons p rest ih =>
    obtain ⟨k, w⟩ := p
    by_cases hk : k = key
    · subst hk
      simp [ainsert, alookup, h]
    · by_cases hk' : key' = k
      · subst hk'
        simp [ainsert, alookup, hk]
      · simp [ainsert, alookup, hk, hk', ih]

/-- Membership after an update: every binding is an untouched old binding or
the rewritten binding of the updated key. -/
theorem mem_aupdate {κ α : Type} [DecidableEq κ]
    {l : List (κ × α)} {key : κ} {f : α → α} {p : κ × α}
    (h : p ∈ aupdate l key f) :
    p ∈ l ∨ ∃ v, (key, v) ∈ l ∧ p = (key, f v) := by
  induction l with
  | nil => simp [aupdate] at h
  | cons q rest ih =>
    obtain ⟨k, v⟩ := q
    by_cases hk : k = key
    · subst hk
      simp only [aupdate, if_true, eq_self_iff_true, List.mem_cons] at h
      rcases h with h | h
      · exact Or.inr ⟨v, List.mem_cons_self _ _, h⟩
      · exact Or.inl (List.mem_cons_of_mem _ h)
    · simp only [aupdate, if_neg hk, List.mem_cons] at h
      rcases h with h | h
      · exact Or.inl (by simp [h])
      · rcases ih h with h' | ⟨w, hw, hp⟩
        · exact Or.inl (List.mem_cons_of_mem _ h')
        · exact Or.inr ⟨w, List.mem_cons_of_mem _ hw, hp⟩

/-- Membership after a dict assignment: a binding is an old one or the
newly written one. -/
theorem mem_ainsert {κ α : Type} [DecidableEq κ]
    {l : List (κ × α)} {key : κ} {v : α} {p : κ × α}
    (h : p ∈ ainsert l key v) :
    p ∈ l ∨ p = (key, v) := by
  induction l with
  | nil => simpa [ainsert] using h
  | cons q rest ih =>
    obtain ⟨k, w⟩ := q
    by_cases hk : k = key
    · subst hk
      simp only [ainsert, if_true, eq_self_iff_true, List.mem_cons] at h
      rcases h with h | h
      · exact Or.inr h
      · exact Or.inl (List.mem_cons_of_mem _ h)
    · simp only [ainsert, if_neg hk, List.mem_cons] at h
      rcases h with h | h
      · exact Or.inl (by simp [h])
      · rcases ih h with h' | h'
        · exact Or.inl (List.mem_cons_of_mem _ h')
        · exact Or.inr h'

/-- Sharper membership after an update: the rewritten binding, if hit, is
the first binding of the key, i.e. the one alookup sees. -/
theorem mem_aupdate_sharp {κ α : Type} [DecidableEq κ]
    {l : List (κ × α)} {key : κ} {f : α → α} {p : κ × α}
    (h : p ∈ aupdate l key f) :
    p ∈ l ∨ ∃ v, alookup l key = some v ∧ p = (key, f v) := by
  induction l with
  | nil => simp [aupdate] at h
  | cons q rest ih =>
    obtain ⟨k, v⟩ := q
    by_cases hk : k = key
    · subst hk
      simp only [aupdate, if_true, eq_self_iff_true, List.mem_cons] at h
      rcases h with h | h
      · exact Or.inr ⟨v, by simp [alookup], h⟩
      · exact Or.inl (List.mem_cons_of_mem _ h)
    · simp only [aupdate, if_neg hk, List.mem_cons] at h
      rcases h with h | h
      · exact Or.inl (by simp [h])
      · rcases ih h with h' | ⟨w, hw, hp⟩
        · exact Or.inl (List.mem_cons_of_mem _ h')
        · refine Or.inr ⟨w, ?_, hp⟩
          have hk' : ¬ key = k := fun hkk => hk hkk.symm
          simp [alookup, hk', hw]

theorem alookup_mem {κ α : Type} [DecidableEq κ]
    {l : List (κ × α)} {key : κ} {v : α} (h : alookup l key = some v) :
    (key, v) ∈ l := by
  induction l with
  | nil => simp [alookup] at h
  | cons p rest ih =>
    obtain ⟨k, w⟩ := p
    by_cases hk : key = k
    · subst hk
      simp only [alookup, if_true, eq_self_iff_true, Option.some.injEq] at h
      simp [h]
    · simp only [alookup, if_neg hk] at h
      exact List.mem_cons_of_mem _ (ih h)

-- ===== ENUMS (class OrderStatus, class OrderType) =====

/-- OrderStatus enum of the source. -/
inductive OrderStatus : Type
  | placed
  | preparing
  | ready
  | in_transit
  | delivered
  | picked_up
  | cancelled
deriving DecidableEq, Repr

/-- OrderType enum of the source. -/
inductive OrderType : Type
  | delivery
  | takeaway
deriving DecidableEq, Repr

-- ===== MODELS =====

/-- class MenuItem: a catalog item object. Instances live on a heap of
object references, because the source shares one object between the
restaurant catalog and every OrderItem that selected it. -/
structure MenuItem : Type where
  item_id : String
  name : String
  description : String
  price : ℚ
  prep_time : Int
deriving DecidableEq, Repr

/-- The heap of MenuItem objects: Nat plays the role of object identity. -/
abbrev MenuHeap : Type := List (Nat × MenuItem)

/-- Reads menu_item.price through the object reference. Addresses handed
out by the model are always live (Python references cannot dangle), so the
none branch is unreachable; 0 is a dummy. -/
def refPrice (h : MenuHeap) (addr : Nat) : ℚ :=
  match alookup h addr with
  | some m => m.price
  | none => 0

/-- Reads menu_item.prep_time through the object reference. -/
def refPrepTime (h : MenuHeap) (addr : Nat) : Int :=
  match alookup h addr with
  | some m => m.prep_time
  | none => 0

/-- The Python statement menu_item.price = p executed on a shared catalog
object: it rewrites the heap cell, so every holder of the reference sees
the new price. -/
def setMenuItemPrice (h : MenuHeap) (addr : Nat) (p : ℚ) : MenuHeap :=
  aupdate h addr (fun m => { m with price := p })

/-- class OrderItem: menu_item holds the object reference, quantity the
requested count. -/
structure OrderItem : Type where
  menu_item : Nat
  quantity : Int
deriving DecidableEq, Repr

/-- OrderItem.get_total_price: self.menu_item.price * self.quantity, read
through the live reference. -/
def OrderItem.get_total_price (h : MenuHeap) (oi : OrderItem) : ℚ :=
  refPrice h oi.menu_item * oi.quantity

/-- class Customer (fields relevant to the order service). -/
structure Customer : Type where
  name : String
  email : String
  address : String
  order_history : List String
deriving DecidableEq, Repr

/-- class DeliveryAgent. The source never declares is_on_duty in the
constructor; toggle_delivery_agent_duty reads and writes it anyway, so it
is an optional attribute here (none = attribute absent, reading it raises
AttributeError). -/
structure DeliveryAgent : Type where
  name : String
  email : String
  available : Bool
  current_order : Option String
  completed_deliveries : List String
  is_on_duty : Option Bool
deriving DecidableEq, Repr

/-- DeliveryAgent.__init__: available=True, no order, empty history, and
no is_on_duty attribute. -/
def DeliveryAgent.init (name email : String) : DeliveryAgent :=
  { name := name, email := email, available := true, current_order := none,
    completed_deliveries := [], is_on_duty := none }

/-- class Restaurant: menu_items maps item ids to MenuItem object
references; orders is the list of order ids. -/
structure Restaurant : Type where
  name : String
  address : String
  menu_items : List (String × Nat)
  orders : List String
deriving DecidableEq, Repr

/-- The value held by Order.estimated_delivery_time: __init__ stores a
datetime (or leaves the field None for takeaway), while
update_estimated_delivery_time overwrites it with the raw HH:MM string. -/
inductive DeliveryEstimate : Type
  | at_time (t : Int)
  | text (s : String)
deriving DecidableEq, Repr

/-- class Order. -/
structure Order : Type where
  order_id : String
  customer_id : String
  restaurant_id : String
  items : List OrderItem
  order_type : OrderType
  status : OrderStatus
  delivery_agent_id : Option String
  placed_time : Int
  estimated_ready_time : Int
  estimated_delivery_time : Option DeliveryEstimate
deriving DecidableEq, Repr

/-- Order.get_total_price: sum(item.get_total_price() for item in items). -/
def Order.get_total_price (h : MenuHeap) (o : Order) : ℚ :=
  (o.items.map (OrderItem.get_total_price h)).sum

/-- Order.__init__. Python max of the empty prep-time list raises
ValueError, so an order with no items cannot be constructed (none); for a
non-empty list the maximum is a left fold of max over the tail starting
from the head. Fifteen minutes are added for delivery orders only. -/
def Order.init (order_id customer_id restaurant_id : String)
    (items : List OrderItem) (order_type : OrderType) (now : Int)
    (h : MenuHeap) : Option Order :=
  match items with
  | [] => none
  | i :: rest =>
    let prep_time :=
      rest.foldl (fun acc oi => max acc (refPrepTime h oi.menu_item))
        (refPrepTime h i.menu_item)
    let ready := now + prep_time
    some { order_id := order_id, customer_id := customer_id,
           restaurant_id := restaurant_id, items := items,
           order_type := order_type, status := OrderStatus.placed,
           delivery_agent_id := none, placed_time := now,
           estimated_ready_time := ready,
           estimated_delivery_time :=
             if order_type = OrderType.delivery
             then some (DeliveryEstimate.at_time (ready + 15))
             else none }

-- ===== DATA STORAGE =====

/-- class DataStore: the in-memory dictionaries. Persistence re-reads and
re-writes exactly this state, so files are not modelled. -/
structure DataStore : Type where
  heap : MenuHeap
  customers : List (String × Customer)
  delivery_agents : List (String × DeliveryAgent)
  restaurants : List (String × Restaurant)
  orders : List (String × Order)
deriving DecidableEq, Repr

-- ===== SERVICES (class OrderService) =====

/-- One entry of the item_selections argument of create_order. -/
structure Selection : Type where
  item_id : String
  quantity : Int
deriving DecidableEq, Repr

/-- The distinguishable ValueError messages create_order can raise, plus
the swallowed KeyError path (unknown customer) that makes the method print
and return None after it has already mutated state. -/
inductive CreateErr : Type
  | restaurantNotFound
  | noAvailableAgents
  | menuItemNotFound
  | emptyItems
  | cannotAssignAgent
  | customerNotFound
deriving DecidableEq, Repr

/-- Result of create_order: ok carries the state after all mutations and
the returned order; err carries the error and the state as it stands when
the call leaves (unchanged for every raise, partially mutated on the
swallowed unknown-customer KeyError). -/
inductive CreateResult : Type
  | ok (s : DataStore) (o : Order)
  | err (e : CreateErr) (s : DataStore)
deriving DecidableEq, Repr

/-- The state in which a create_order call leaves the store. -/
def CreateResult.state : CreateResult → DataStore
  | CreateResult.ok s _ => s
  | CreateResult.err _ s => s

/-- The agent scan of create_order and _assign_delivery_agent: the first
agent of dict-iteration (insertion) order whose available flag is set. -/
def firstAvailableAgent (agents : List (String × DeliveryAgent)) :
    Option (String × DeliveryAgent) :=
  agents.find? (fun p => p.2.available)

/-- OrderService._assign_delivery_agent: picks the first available agent,
marks it unavailable with current_order set to this order, and writes the
agent id into the order; none mirrors the False return when no agent is
available. -/
def assign_delivery_agent (s : DataStore) (order : Order) :
    Option (DataStore × Order) :=
  match firstAvailableAgent s.delivery_agents with
  | none => none
  | some (aid, _) =>
    some
      ({ s with
          delivery_agents :=
            aupdate s.delivery_agents aid
              (fun a => { a with available := false,
                                 current_order := some order.order_id }) },
       { order with delivery_agent_id := some aid })

/-- Tail of create_order after the order object exists (and, for
delivery, after agent assignment): store the order, append to the
customer's history, append to the restaurant's order list. The customer
lookup is a plain dict index in the source; an unknown customer raises
KeyError only after the order dict (and any agent) was already mutated,
and the generic except swallows it into a None return. -/
def create_order_finish (s : DataStore) (customer_id restaurant_id : String)
    (order : Order) : CreateResult :=
  let s2 : DataStore := { s with orders := ainsert s.orders order.order_id order }
  match alookup s2.customers customer_id with
  | none => CreateResult.err CreateErr.customerNotFound s2
  | some _ =>
    let s3 : DataStore :=
      { s2 with
          customers :=
            aupdate s2.customers customer_id
              (fun c => { c with order_history := c.order_history ++ [order.order_id] }) }
    let s4 : DataStore :=
      { s3 with
          restaurants :=
            aupdate s3.restaurants restaurant_id
              (fun r => { r with orders := r.orders ++ [order.order_id] }) }
    CreateResult.ok s4 order

/-- OrderService.create_order. The source checks agent availability for
delivery orders twice (once before the try block, once after the no-op
reload); both checks see the same state so one branch captures both. The
fresh order id (timestamp plus random suffix in the source) is passed in;
now is the placement timestamp in minutes. -/
def create_order (s : DataStore) (customer_id restaurant_id : String)
    (item_selections : List Selection) (order_type : OrderType)
    (now : Int) (order_id : String) : CreateResult :=
  if (alookup s.restaurants restaurant_id).isNone then
    CreateResult.err CreateErr.restaurantNotFound s
  else if order_type = OrderType.delivery ∧
      firstAvailableAgent s.delivery_agents = none then
    CreateResult.err CreateErr.noAvailableAgents s
  else
    match alookup s.restaurants restaurant_id with
    | none => CreateResult.err CreateErr.restaurantNotFound s
    | some restaurant =>
      if (item_selections.find?
            (fun sel => (alookup restaurant.menu_items sel.item_id).isNone)).isSome then
        CreateResult.err CreateErr.menuItemNotFound s
      else
        let order_items : List OrderItem :=
          item_selections.map
            (fun sel =>
              { menu_item := (alookup restaurant.menu_items sel.item_id).getD 0,
                quantity := sel.quantity })
        match Order.init order_id customer_id restaurant_id order_items
            order_type now s.heap with
        | none => CreateResult.err CreateErr.emptyItems s
        | some order =>
          if order_type = OrderType.delivery then
            match assign_delivery_agent s order with
            | none => CreateResult.err CreateErr.cannotAssignAgent s
            | some (s1, order1) =>
              create_order_finish s1 customer_id restaurant_id order1
          else
            create_order_finish s customer_id restaurant_id order

/-- The guard of update_order_status at source line 614: a supplied
user_id together with an assigned agent that does not match makes the
call fail. -/
def agent_auth_fails (user_id delivery_agent_id : Option String) : Bool :=
  match user_id, delivery_agent_id with
  | some u, some a => u != a
  | _, _ => false

/-- The agent mutation update_order_status performs on a transition to
DELIVERED: available becomes true, current_order is cleared only when it
names this very order, and the order id is appended to
completed_deliveries unless already present. -/
def free_agent_on_delivery (order_id : String) (a : DeliveryAgent) :
    DeliveryAgent :=
  let a1 := { a with available := true }
  let a2 :=
    if a1.current_order = some order_id
    then { a1 with current_order := none } else a1
  if order_id ∈ a2.completed_deliveries then a2
  else { a2 with
          completed_deliveries := a2.completed_deliveries ++ [order_id] }

/-- OrderService.update_order_status. Returns the bool result together
with the state after the call. The only status the source refuses to
leave is DELIVERED; the authorization check fires before that test. On a
transition to DELIVERED with an assigned, known agent the agent is
rewritten by free_agent_on_delivery. -/
def update_order_status (s : DataStore) (order_id : String)
    (new_status : OrderStatus) (user_id : Option String) :
    Bool × DataStore :=
  match alookup s.orders order_id with
  | none => (false, s)
  | some order =>
    if agent_auth_fails user_id order.delivery_agent_id then (false, s)
    else if order.status = OrderStatus.delivered then (false, s)
    else
      let newOrders :=
        aupdate s.orders order_id (fun o => { o with status := new_status })
      let s1 : DataStore := { s with orders := newOrders }
      if new_status = OrderStatus.delivered then
        match order.delivery_agent_id with
        | none => (true, s1)
        | some aid =>
          match alookup s1.delivery_agents aid with
          | none => (true, s1)
          | some _ =>
            (true,
             { s1 with
                 delivery_agents :=
                   aupdate s1.delivery_agents aid
                     (free_agent_on_delivery order_id) })
      else (true, s1)

/-- OrderService.cancel_order. An unknown order raises KeyError, which the
generic except turns into a False return. Cancellation is applied only
from PLACED or PREPARING; the status write happens before the agent
lookup, so a dangling delivery_agent_id yields False with the status
already flipped to CANCELLED (swallowed KeyError). The user_id parameter
of the source is unused. -/
def cancel_order (s : DataStore) (order_id : String) : Bool × DataStore :=
  match alookup s.orders order_id with
  | none => (false, s)
  | some order =>
    if order.status = OrderStatus.placed ∨ order.status = OrderStatus.preparing then
      let newOrders :=
        aupdate s.orders order_id (fun o => { o with status := OrderStatus.cancelled })
      let s1 : DataStore := { s with orders := newOrders }
      match order.delivery_agent_id with
      | none => (true, s1)
      | some aid =>
        match alookup s1.delivery_agents aid with
        | none => (false, s1)
        | some _ =>
          (true,
           { s1 with
               delivery_agents :=
                 aupdate s1.delivery_agents aid
                   (fun a => { a with available := true, current_order := none }) })
    else (false, s)

/-- Result of toggle_delivery_agent_duty: the boolean return with the
final state, or the AttributeError that escapes when the method evaluates
agent.is_on_duty on an agent that never had the attribute set. -/
inductive ToggleResult : Type
  | ret (b : Bool) (s : DataStore)
  | attrError (s : DataStore)
deriving DecidableEq, Repr

/-- The state in which a toggle_delivery_agent_duty call leaves the store. -/
def ToggleResult.state : ToggleResult → DataStore
  | ToggleResult.ret _ s => s
  | ToggleResult.attrError s => s

/-- OrderService.toggle_delivery_agent_duty. Unknown agent and busy agent
return False. Otherwise the source executes
agent.is_on_duty = not agent.is_on_duty: reading the right-hand side
raises AttributeError when the attribute is absent (DeliveryAgent.__init__
never sets it); when present, only is_on_duty is flipped - the available
flag is never touched by this method. -/
def toggle_delivery_agent_duty (s : DataStore) (agent_id : String) :
    ToggleResult :=
  match alookup s.delivery_agents agent_id with
  | none => ToggleResult.ret false s
  | some agent =>
    match agent.current_order with
    | some _ => ToggleResult.ret false s
    | none =>
      match agent.is_on_duty with
      | none => ToggleResult.attrError s
      | some b =>
        ToggleResult.ret true
          { s with
              delivery_agents :=
                aupdate s.delivery_agents agent_id
                  (fun a => { a with is_on_duty := some (!b) }) }

/-- The two distinguishable ValueError messages of
update_estimated_delivery_time. -/
inductive TimeErr : Type
  | invalidFormat
  | pastTime
deriving DecidableEq, Repr

/-- Result of update_estimated_delivery_time: a boolean return with the
final state, or a raised ValueError with the untouched state. -/
inductive TimeUpdResult : Type
  | ret (b : Bool) (s : DataStore)
  | valueError (e : TimeErr) (s : DataStore)
deriving DecidableEq, Repr

/-- Decimal digit test on a character (codepoints 48 to 57). -/
def isDigitChar (c : Char) : Bool :=
  48 ≤ c.toNat && c.toNat ≤ 57

/-- Split a character list at every occurrence of the separator
character (the list-level view of splitting the string at each colon). -/
def splitAtChar (c : Char) : List Char → List (List Char)
  | [] => [[]]
  | x :: xs =>
    if x = c then [] :: splitAtChar c xs
    else
      match splitAtChar c xs with
      | y :: ys => (x :: y) :: ys
      | [] => [[x]]

/-- One field of the HH:MM pattern of strptime: one or two digit
characters whose decimal value stays within the directive's range (23 for
the hour directive, 59 for the minute directive). -/
def parseTimeField (t : List Char) (bound : Nat) : Option Nat :=
  if (1 ≤ t.length ∧ t.length ≤ 2) ∧ t.all isDigitChar then
    let n := t.foldl (fun acc c => acc * 10 + (c.toNat - 48)) 0
    if n ≤ bound then some n else none
  else none

/-- datetime.strptime(new_delivery_time, HH colon MM).time(): exactly one
colon separating an hour field and a minute field, nothing else. -/
def parseHHMM (str : String) : Option (Nat × Nat) :=
  match splitAtChar ':' str.data with
  | [hs, ms] =>
    match parseTimeField hs 23, parseTimeField ms 59 with
    | some h, some m => some (h, m)
    | _, _ => none
  | _ => none

/-- OrderService.update_estimated_delivery_time. now_us is the current
time of day in microseconds since midnight; the parsed HH:MM has zero
seconds and microseconds, so the source's datetime.time comparison is the
strict order on microsecond counts. On success the field is overwritten
with the raw string (not a datetime). -/
def update_estimated_delivery_time (s : DataStore)
    (order_id new_delivery_time agent_id : String) (now_us : Nat) :
    TimeUpdResult :=
  match alookup s.orders order_id with
  | none => TimeUpdResult.ret false s
  | some order =>
    if order.status = OrderStatus.delivered then TimeUpdResult.ret false s
    else if order.delivery_agent_id ≠ some agent_id then TimeUpdResult.ret false s
    else
      match parseHHMM new_delivery_time with
      | none => TimeUpdResult.valueError TimeErr.invalidFormat s
      | some (h, m) =>
        if (h * 3600 + m * 60) * 1000000 < now_us then
          TimeUpdResult.valueError TimeErr.pastTime s
        else
          TimeUpdResult.ret true
            { s with
                orders :=
                  aupdate s.orders order_id
                    (fun o => { o with
                        estimated_delivery_time :=
                          some (DeliveryEstimate.text new_delivery_time) }) }

-- ===== CONCRETE FIXTURES =====

/-- A catalog item at heap address 0: price 10, fifteen minutes of
preparation. -/
def itemP1 : MenuItem :=
  { item_id := "P1", name := "Pizza", description := "plain",
    price := 10, prep_time := 15 }

/-- A registered customer with an empty order history. -/
def custC1 : Customer :=
  { name := "Cara", email := "cara@example.com", address := "1 Main St",
    order_history := [] }

/-- A restaurant whose catalog holds item P1 (heap address 0). -/
def restR1 : Restaurant :=
  { name := "Foodie", address := "2 Main St", menu_items := [("P1", 0)],
    orders := [] }

/-- A base store: one restaurant, one customer, one freshly constructed
delivery agent. -/
def baseStore : DataStore :=
  { heap := [(0, itemP1)],
    customers := [("c1", custC1)],
    delivery_agents := [("g1", DeliveryAgent.init "Gil" "gil@example.com")],
    restaurants := [("r1", restR1)],
    orders := [] }

-- ===== CLAIM C1 =====

/-- The store after placing a delivery order A of two units of P1 through
create_order. -/
def storeWithOrderA : DataStore :=
  (create_order baseStore "c1" "r1" [{ item_id := "P1", quantity := 2 }]
    OrderType.delivery 0 "A").state

/-- C1: the claim asserts snapshot pricing - total_price() is the sum of
order-placement-time prices times quantities, unaffected by a later edit
of the catalog item's price. The code stores a live reference to the
shared MenuItem object instead of a copy, so an in-place edit of the
object's price retroactively changes the placed order's total: order A
(two units of P1 placed at price 10) totals 20, but after the catalog
object's price is set to 25 the very same order totals 50. -/
theorem total_price_tracks_live_catalog_price :
    ((alookup storeWithOrderA.orders "A").map
        (Order.get_total_price storeWithOrderA.heap) = some 20) ∧
    ((alookup storeWithOrderA.orders "A").map
        (Order.get_total_price (setMenuItemPrice storeWithOrderA.heap 0 25)) =
      some 50) := by
  have hA : alookup storeWithOrderA.orders "A" =
      some { order_id := "A", customer_id := "c1", restaurant_id := "r1",
             items := [{ menu_item := 0, quantity := 2 }],
             order_type := OrderType.delivery, status := OrderStatus.placed,
             delivery_agent_id := some "g1", placed_time := 0,
             estimated_ready_time := 15,
             estimated_delivery_time := some (DeliveryEstimate.at_time 30) } := by
    decide
  have hheap : storeWithOrderA.heap = [(0, itemP1)] := rfl
  rw [hA, hheap]
  constructor
  · simp [Order.get_total_price, OrderItem.get_total_price, refPrice,
      alookup, itemP1]
    norm_num
  · simp [Order.get_total_price, OrderItem.get_total_price, refPrice,
      setMenuItemPrice, aupdate, alookup, itemP1]
    norm_num

-- ===== CLAIM C2 =====

/-- C2: placing a Delivery order while the restaurant exists but no
delivery agent is available fails with the dedicated no-available-agents
ValueError, and the store it leaves behind is exactly the input store: no
order is created, no history or restaurant list is appended, nothing is
persisted. -/
theorem create_order_delivery_no_agents_fails_before_mutation
    (s : DataStore) (customer_id restaurant_id : String)
    (sels : List Selection) (now : Int) (oid : String)
    (hrest : (alookup s.restaurants restaurant_id).isSome)
    (hagents : ∀ p ∈ s.delivery_agents, p.2.available = false) :
    create_order s customer_id restaurant_id sels OrderType.delivery now oid =
      CreateResult.err CreateErr.noAvailableAgents s := by
  obtain ⟨r, hr⟩ := Option.isSome_iff_exists.mp hrest
  have hfind : firstAvailableAgent s.delivery_agents = none := by
    apply List.find?_eq_none.mpr
    intro p hp
    simp [hagents p hp]
  simp [create_order, hr, hfind]

/-- A store whose only delivery agent is off duty (available = false). -/
def storeNoFreeAgent : DataStore :=
  { baseStore with
      delivery_agents :=
        [("g1", { DeliveryAgent.init "Gil" "gil@example.com" with
                    available := false })] }

/-- C2 witness: the theorem applied to the concrete store with one
unavailable agent. -/
theorem create_order_delivery_no_agents_witness :
    create_order storeNoFreeAgent "c1" "r1" [{ item_id := "P1", quantity := 1 }]
        OrderType.delivery 0 "A" =
      CreateResult.err CreateErr.noAvailableAgents storeNoFreeAgent :=
  create_order_delivery_no_agents_fails_before_mutation
    storeNoFreeAgent "c1" "r1" [{ item_id := "P1", quantity := 1 }] 0 "A"
    (by decide) (by decide)

-- ===== CLAIM C3 =====

/-- A cancelled order stored under id A (takeaway, no agent). -/
def cancelledOrderA : Order :=
  { order_id := "A", customer_id := "c1", restaurant_id := "r1",
    items := [{ menu_item := 0, quantity := 1 }],
    order_type := OrderType.takeaway, status := OrderStatus.cancelled,
    delivery_agent_id := none, placed_time := 0,
    estimated_ready_time := 15, estimated_delivery_time := none }

/-- A store holding the cancelled order A. -/
def storeCancelledA : DataStore :=
  { baseStore with orders := [("A", cancelledOrderA)] }

/-- C3 counterexample: the claim says every order in a terminal state
(Delivered, PickedUp or Cancelled) refuses any update_status call. The
code only guards DELIVERED: update_status on the stored CANCELLED order A
returns true and moves it back to PREPARING. -/
theorem update_status_terminal_counterexample :
    (update_order_status storeCancelledA "A" OrderStatus.preparing none).1 = true ∧
    (alookup (update_order_status storeCancelledA "A"
        OrderStatus.preparing none).2.orders "A").map Order.status =
      some OrderStatus.preparing := by
  constructor <;> rfl

/-- C3 amended: of the three spec-terminal states only DELIVERED is
terminal in the code - for a stored order whose status is DELIVERED,
update_status with any requested status and any caller returns false and
leaves the whole store (order and agents) unchanged; the attempt is
reported as a failure. -/
theorem update_status_delivered_is_terminal
    (s : DataStore) (order_id : String) (new_status : OrderStatus)
    (user_id : Option String) (o : Order)
    (ho : alookup s.orders order_id = some o)
    (hst : o.status = OrderStatus.delivered) :
    update_order_status s order_id new_status user_id = (false, s) := by
  simp [update_order_status, ho, hst]

/-- A delivered delivery order stored under id D, assigned to agent g1. -/
def deliveredOrderD : Order :=
  { order_id := "D", customer_id := "c1", restaurant_id := "r1",
    items := [{ menu_item := 0, quantity := 1 }],
    order_type := OrderType.delivery, status := OrderStatus.delivered,
    delivery_agent_id := some "g1", placed_time := 0,
    estimated_ready_time := 15,
    estimated_delivery_time := some (DeliveryEstimate.at_time 30) }

/-- A store holding the delivered order D. -/
def storeDeliveredD : DataStore :=
  { baseStore with orders := [("D", deliveredOrderD)] }

/-- C3 witness: the amended theorem applied to the concrete delivered
order D being pushed back to PREPARING. -/
theorem update_status_delivered_is_terminal_witness :
    update_order_status storeDeliveredD "D" OrderStatus.preparing none =
      (false, storeDeliveredD) :=
  update_status_delivered_is_terminal storeDeliveredD "D"
    OrderStatus.preparing none deliveredOrderD (by decide) (by decide)

-- ===== CLAIM C4 =====

/-- C4: for a delivery order with an assigned agent whose current
assignment is this order and whose completed list does not yet hold it,
marking the order DELIVERED twice: the first call succeeds and frees the
agent (available true, current_order cleared) with the order id appended
to the completed list exactly once; the second call returns false and
changes nothing, so the state after the first call absorbs every further
identical call and the completed list keeps exactly one copy of the id. -/
theorem update_status_delivered_twice_idempotent
    (s : DataStore) (order_id aid : String) (user_id : Option String)
    (o : Order) (ag : DeliveryAgent)
    (ho : alookup s.orders order_id = some o)
    (hst : o.status ≠ OrderStatus.delivered)
    (hda : o.delivery_agent_id = some aid)
    (hag : alookup s.delivery_agents aid = some ag)
    (hcur : ag.current_order = some order_id)
    (hnew : order_id ∉ ag.completed_deliveries)
    (hauth : user_id = none ∨ user_id = some aid) :
    ∃ s1 : DataStore,
      update_order_status s order_id OrderStatus.delivered user_id = (true, s1) ∧
      (∃ ag1, alookup s1.delivery_agents aid = some ag1 ∧
        ag1.available = true ∧ ag1.current_order = none ∧
        ag1.completed_deliveries.count order_id = 1) ∧
      update_order_status s1 order_id OrderStatus.delivered user_id =
        (false, s1) := by
  have hauthb : agent_auth_fails user_id o.delivery_agent_id = false := by
    rcases hauth with h | h <;> subst h <;> simp [agent_auth_fails, hda]
  rw [hda] at hauthb
  refine ⟨{ s with
      orders := aupdate s.orders order_id
        (fun o => { o with status := OrderStatus.delivered }),
      delivery_agents := aupdate s.delivery_agents aid
        (free_agent_on_delivery order_id) }, ?_, ?_, ?_⟩
  · simp [update_order_status, ho, hauthb, hst, hda, hag]
  · refine ⟨free_agent_on_delivery order_id ag, ?_, ?_⟩
    · simp [alookup_aupdate_self, hag]
    · simp only [free_agent_on_delivery, hcur]
      simp [hnew, List.count_append, List.count_eq_zero.mpr hnew]
  · have ho2 : alookup
        (aupdate s.orders order_id
          (fun o => { o with status := OrderStatus.delivered })) order_id =
        some { o with status := OrderStatus.delivered } := by
      simp [alookup_aupdate_self, ho]
    simp [update_order_status, ho2, hda, hauthb]

/-- C4 witness: the theorem applied to the store holding the freshly
placed delivery order A assigned to agent g1. -/
theorem update_status_delivered_twice_idempotent_witness :
    ∃ s1 : DataStore,
      update_order_status storeWithOrderA "A" OrderStatus.delivered
          (some "g1") = (true, s1) ∧
      (∃ ag1, alookup s1.delivery_agents "g1" = some ag1 ∧
        ag1.available = true ∧ ag1.current_order = none ∧
        ag1.completed_deliveries.count "A" = 1) ∧
      update_order_status s1 "A" OrderStatus.delivered (some "g1") =
        (false, s1) :=
  update_status_delivered_twice_idempotent storeWithOrderA "A" "g1"
    (some "g1")
    { order_id := "A", customer_id := "c1", restaurant_id := "r1",
      items := [{ menu_item := 0, quantity := 2 }],
      order_type := OrderType.delivery, status := OrderStatus.placed,
      delivery_agent_id := some "g1", placed_time := 0,
      estimated_ready_time := 15,
      estimated_delivery_time := some (DeliveryEstimate.at_time 30) }
    { DeliveryAgent.init "Gil" "gil@example.com" with
        available := false, current_order := some "A" }
    (by decide) (by decide) (by decide) (by decide) (by decide) (by decide)
    (Or.inr rfl)

-- ===== CLAIM C5 =====

/-- The dict lookup cancel_order performs through
order.delivery_agent_id succeeds: either no agent is assigned or the
assigned id is a registered agent. Placed orders created through the
service always satisfy this. -/
def agent_ref_ok (s : DataStore) (o : Order) : Bool :=
  match o.delivery_agent_id with
  | none => true
  | some aid => (alookup s.delivery_agents aid).isSome

/-- C5: cancel_order succeeds exactly on orders whose status is PLACED or
PREPARING; on success the order becomes CANCELLED and an assigned agent
is freed (available true, current_order cleared), while without an
assigned agent the agent pool is untouched; in every other status the
call returns false and the store is exactly the input store. -/
theorem cancel_order_spec
    (s : DataStore) (order_id : String) (o : Order)
    (ho : alookup s.orders order_id = some o)
    (hwf : agent_ref_ok s o = true) :
    ((o.status = OrderStatus.placed ∨ o.status = OrderStatus.preparing) →
      ∃ s1, cancel_order s order_id = (true, s1) ∧
        (alookup s1.orders order_id).map Order.status =
          some OrderStatus.cancelled ∧
        (o.delivery_agent_id = none → s1.delivery_agents = s.delivery_agents) ∧
        (∀ aid, o.delivery_agent_id = some aid →
          ∃ ag1, alookup s1.delivery_agents aid = some ag1 ∧
            ag1.available = true ∧ ag1.current_order = none)) ∧
    (o.status ≠ OrderStatus.placed → o.status ≠ OrderStatus.preparing →
      cancel_order s order_id = (false, s)) := by
  constructor
  · intro hstat
    cases hda : o.delivery_agent_id with
    | none =>
      refine ⟨{ s with
          orders := aupdate s.orders order_id
            (fun o => { o with status := OrderStatus.cancelled }) }, ?_, ?_, ?_, ?_⟩
      · simp [cancel_order, ho, hstat, hda]
      · simp [alookup_aupdate_self, ho]
      · intro _; rfl
      · intro aid h; simp [hda] at h
    | some aid =>
      rw [agent_ref_ok, hda] at hwf
      obtain ⟨ag, hag⟩ := Option.isSome_iff_exists.mp hwf
      refine ⟨{ s with
          orders := aupdate s.orders order_id
            (fun o => { o with status := OrderStatus.cancelled }),
          delivery_agents := aupdate s.delivery_agents aid
            (fun a => { a with available := true, current_order := none }) },
        ?_, ?_, ?_, ?_⟩
      · simp [cancel_order, ho, hstat, hda, hag]
      · simp [alookup_aupdate_self, ho]
      · intro h; simp [hda] at h
      · intro aid' h
        cases h
        exact ⟨{ ag with available := true, current_order := none },
          by simp [alookup_aupdate_self, hag], rfl, rfl⟩
  · intro h1 h2
    have : ¬ (o.status = OrderStatus.placed ∨ o.status = OrderStatus.preparing) := by
      rintro (h | h) <;> [exact h1 h; exact h2 h]
    simp [cancel_order, ho, this]

/-- C5 witness: cancelling the freshly placed delivery order A (status
PLACED, agent g1 assigned) through the theorem. -/
theorem cancel_order_spec_witness :
    ∃ s1, cancel_order storeWithOrderA "A" = (true, s1) ∧
      (alookup s1.orders "A").map Order.status = some OrderStatus.cancelled ∧
      ((OrderStatus.placed = OrderStatus.placed ∨
          OrderStatus.placed = OrderStatus.preparing) → True) ∧
      (∀ aid, (some "g1" : Option String) = some aid →
        ∃ ag1, alookup s1.delivery_agents aid = some ag1 ∧
          ag1.available = true ∧ ag1.current_order = none) := by
  obtain ⟨s1, h1, h2, h3, h4⟩ :=
    (cancel_order_spec storeWithOrderA "A"
      { order_id := "A", customer_id := "c1", restaurant_id := "r1",
        items := [{ menu_item := 0, quantity := 2 }],
        order_type := OrderType.delivery, status := OrderStatus.placed,
        delivery_agent_id := some "g1", placed_time := 0,
        estimated_ready_time := 15,
        estimated_delivery_time := some (DeliveryEstimate.at_time 30) }
      (by decide) (by decide)).1 (Or.inl rfl)
  exact ⟨s1, h1, h2, fun _ => trivial, h4⟩

-- ===== CLAIM C6 =====

/-- C6: the claim says toggle_agent_duty on a busy agent returns false
and leaves availability unchanged, and otherwise flips the agent's
availability flag and returns true. The failure half holds: on the busy
agent of the order-A store the call returns false with the store intact.
The success half is broken: on a freshly constructed agent with no
assignment the source evaluates agent.is_on_duty, an attribute
DeliveryAgent.__init__ never creates, so the call raises AttributeError
instead of returning true - and the available flag is never touched by
this method on any path. -/
theorem toggle_duty_crashes_instead_of_flipping_availability :
    toggle_delivery_agent_duty storeWithOrderA "g1" =
      ToggleResult.ret false storeWithOrderA ∧
    toggle_delivery_agent_duty baseStore "g1" =
      ToggleResult.attrError baseStore := by
  constructor <;> rfl

-- ===== CLAIM C7 =====

/-- C7: for a stored non-Delivered order and its assigned agent,
update_estimated_delivery_time raises the malformed-input ValueError when
the string does not parse as a time-of-day, and the distinct
past-time ValueError when the parsed time-of-day lies strictly before the
current one; both raises leave the store (hence the order's estimate)
exactly as it was. -/
theorem update_delivery_time_rejects_bad_input
    (s : DataStore) (order_id agent_id ts : String) (o : Order)
    (now_us : Nat)
    (ho : alookup s.orders order_id = some o)
    (hst : o.status ≠ OrderStatus.delivered)
    (hda : o.delivery_agent_id = some agent_id) :
    (parseHHMM ts = none →
      update_estimated_delivery_time s order_id ts agent_id now_us =
        TimeUpdResult.valueError TimeErr.invalidFormat s) ∧
    (∀ hh mm, parseHHMM ts = some (hh, mm) →
      (hh * 3600 + mm * 60) * 1000000 < now_us →
      update_estimated_delivery_time s order_id ts agent_id now_us =
        TimeUpdResult.valueError TimeErr.pastTime s) := by
  constructor
  · intro hp
    simp [update_estimated_delivery_time, ho, hst, hda, hp]
  · intro hh mm hp hlt
    simp [update_estimated_delivery_time, ho, hst, hda, hp, hlt]

/-- The order record create_order builds for the fixture order A. -/
def placedOrderA : Order :=
  { order_id := "A", customer_id := "c1", restaurant_id := "r1",
    items := [{ menu_item := 0, quantity := 2 }],
    order_type := OrderType.delivery, status := OrderStatus.placed,
    delivery_agent_id := some "g1", placed_time := 0,
    estimated_ready_time := 15,
    estimated_delivery_time := some (DeliveryEstimate.at_time 30) }

/-- C7 witness: on order A (placed, assigned to g1) at noon, the
non-time string raises the malformed-input error and 00:30 raises the
past-time error, both leaving the store untouched. -/
theorem update_delivery_time_rejects_bad_input_witness :
    update_estimated_delivery_time storeWithOrderA "A" "oops" "g1"
        43200000000 =
      TimeUpdResult.valueError TimeErr.invalidFormat storeWithOrderA ∧
    update_estimated_delivery_time storeWithOrderA "A" "00:30" "g1"
        43200000000 =
      TimeUpdResult.valueError TimeErr.pastTime storeWithOrderA := by
  constructor
  · exact (update_delivery_time_rejects_bad_input storeWithOrderA "A" "g1"
      "oops" placedOrderA 43200000000 (by decide) (by decide) (by decide)).1
      (by decide)
  · exact (update_delivery_time_rejects_bad_input storeWithOrderA "A" "g1"
      "00:30" placedOrderA 43200000000 (by decide) (by decide) (by decide)).2
      0 30 (by decide) (by decide)

-- ===== CLAIM C9 =====

/-- The seed of a left max fold is a lower bound of the fold. -/
theorem le_foldl_max_init {α : Type} [LinearOrder α] (a : α) (l : List α) :
    a ≤ l.foldl max a := by
  induction l generalizing a with
  | nil => exact le_refl a
  | cons b t ih => exact le_trans (le_max_left a b) (ih (max a b))

/-- Every element of the list is a lower bound of a left max fold over
it. -/
theorem le_foldl_max_mem {α : Type} [LinearOrder α] (a x : α) (l : List α)
    (hx : x ∈ l) : x ≤ l.foldl max a := by
  induction l generalizing a with
  | nil => cases hx
  | cons b t ih =>
    rcases List.mem_cons.mp hx with h | h
    · subst h
      exact le_trans (le_max_right a x) (le_foldl_max_init _ _)
    · exact ih (max a b) h

/-- A left max fold is attained: it is the seed or an element of the
list. -/
theorem foldl_max_cases {α : Type} [LinearOrder α] (a : α) (l : List α) :
    l.foldl max a = a ∨ l.foldl max a ∈ l := by
  induction l generalizing a with
  | nil => exact Or.inl rfl
  | cons b t ih =>
    rcases ih (max a b) with h | h
    · rcases max_cases a b with ⟨h1, _⟩ | ⟨h1, _⟩
      · rw [List.foldl_cons, h, h1]
        exact Or.inl rfl
      · rw [List.foldl_cons, h, h1]
        exact Or.inr (List.mem_cons_self _ _)
    · exact Or.inr (List.mem_cons_of_mem _ (by simpa using h))

/-- C9: an order built from a non-empty item list has
estimated_ready_time equal to the placed timestamp plus the maximum
preparation time over its items (an upper bound of all of them that is
attained by one of them), and carries
estimated_delivery_time = estimated_ready_time + 15 exactly when the kind
is Delivery, the field being absent (None) exactly for Takeaway. -/
theorem order_init_time_estimates
    (order_id customer_id restaurant_id : String)
    (i : OrderItem) (rest : List OrderItem) (ot : OrderType) (now : Int)
    (h : MenuHeap) :
    ∃ o, Order.init order_id customer_id restaurant_id (i :: rest) ot now h =
        some o ∧
      (∀ j ∈ i :: rest,
        now + refPrepTime h j.menu_item ≤ o.estimated_ready_time) ∧
      (∃ j ∈ i :: rest,
        o.estimated_ready_time = now + refPrepTime h j.menu_item) ∧
      (ot = OrderType.delivery ↔
        o.estimated_delivery_time =
          some (DeliveryEstimate.at_time (o.estimated_ready_time + 15))) ∧
      (ot = OrderType.takeaway ↔ o.estimated_delivery_time = none) := by
  have hfold :
      rest.foldl (fun acc oi => max acc (refPrepTime h oi.menu_item))
          (refPrepTime h i.menu_item) =
        (rest.map (fun oi => refPrepTime h oi.menu_item)).foldl max
          (refPrepTime h i.menu_item) := by
    rw [List.foldl_map]
  refine ⟨_, rfl, ?_, ?_, ?_, ?_⟩
  · intro j hj
    simp only []
    rcases List.mem_cons.mp hj with hji | hjr
    · subst hji
      have := le_foldl_max_init (refPrepTime h j.menu_item)
        (rest.map (fun oi => refPrepTime h oi.menu_item))
      rw [hfold]
      exact add_le_add_left this now
    · have := le_foldl_max_mem (refPrepTime h i.menu_item)
        (refPrepTime h j.menu_item)
        (rest.map (fun oi => refPrepTime h oi.menu_item))
        (List.mem_map_of_mem _ hjr)
      rw [hfold]
      exact add_le_add_left this now
  · rcases foldl_max_cases (refPrepTime h i.menu_item)
        (rest.map (fun oi => refPrepTime h oi.menu_item)) with hc | hc
    · refine ⟨i, List.mem_cons_self _ _, ?_⟩
      simp only [hfold, hc]
    · obtain ⟨j, hjr, hje⟩ := List.mem_map.mp hc
      refine ⟨j, List.mem_cons_of_mem _ hjr, ?_⟩
      simp only [hfold, ← hje]
  · cases ot <;> simp
  · cases ot <;> simp

-- ===== CLAIM C10 =====

/-- C10: for a stored order that is not DELIVERED, an authorized caller
can set any status whatsoever - update_status returns true and writes the
requested status without validating the Placed, Preparing, Ready,
InTransit/PickedUp state machine; in particular a PLACED order can jump
straight to DELIVERED and a CANCELLED or PICKED_UP order can be moved
back to PREPARING. -/
theorem update_status_accepts_any_transition
    (s : DataStore) (order_id : String) (new_status : OrderStatus)
    (user_id : Option String) (o : Order)
    (ho : alookup s.orders order_id = some o)
    (hst : o.status ≠ OrderStatus.delivered)
    (hauth : agent_auth_fails user_id o.delivery_agent_id = false) :
    (update_order_status s order_id new_status user_id).1 = true ∧
    (alookup (update_order_status s order_id new_status user_id).2.orders
        order_id).map Order.status = some new_status := by
  by_cases hd : new_status = OrderStatus.delivered
  · subst hd
    cases hda : o.delivery_agent_id with
    | none =>
      have hauth0 : agent_auth_fails user_id none = false := by
        cases user_id <;> rfl
      simp [update_order_status, ho, hauth0, hst, hda, alookup_aupdate_self]
    | some aid =>
      rw [hda] at hauth
      cases hag : alookup s.delivery_agents aid with
      | none =>
        simp [update_order_status, ho, hauth, hst, hda, hag,
          alookup_aupdate_self]
      | some ag =>
        simp [update_order_status, ho, hauth, hst, hda, hag,
          alookup_aupdate_self]
  · simp [update_order_status, ho, hauth, hst, hd, alookup_aupdate_self]

/-- C10 witness: the stored CANCELLED order A is moved back to PREPARING
by an unauthenticated caller. -/
theorem update_status_accepts_any_transition_witness :
    (update_order_status storeCancelledA "A" OrderStatus.preparing none).1 =
      true ∧
    (alookup (update_order_status storeCancelledA "A" OrderStatus.preparing
        none).2.orders "A").map Order.status = some OrderStatus.preparing :=
  update_status_accepts_any_transition storeCancelledA "A"
    OrderStatus.preparing none cancelledOrderA (by decide) (by decide)
    (by decide)

-- ===== CLAIM C8 =====

/-- The spec invariant over an agent pool: an agent holding a current
assignment is never marked available. -/
def AgentListInv (l : List (String × DeliveryAgent)) : Prop :=
  ∀ p ∈ l, p.2.current_order ≠ none → p.2.available = false

instance (l : List (String × DeliveryAgent)) : Decidable (AgentListInv l) :=
  List.decidableBAll _ l

/-- The spec invariant over a whole store. -/
def AgentInv (s : DataStore) : Prop :=
  AgentListInv s.delivery_agents

instance (s : DataStore) : Decidable (AgentInv s) :=
  inferInstanceAs (Decidable (AgentListInv s.delivery_agents))

/-- Updating one agent preserves the pool invariant as soon as the
rewritten agent (the one alookup sees) satisfies it. -/
theorem agentListInv_aupdate {l : List (String × DeliveryAgent)}
    (h : AgentListInv l) (aid : String) (f : DeliveryAgent → DeliveryAgent)
    (hf : ∀ v, alookup l aid = some v →
      (f v).current_order ≠ none → (f v).available = false) :
    AgentListInv (aupdate l aid f) := by
  intro p hp
  rcases mem_aupdate_sharp hp with hmem | ⟨v, hv, rfl⟩
  · exact h p hmem
  · exact hf v hv

/-- free_agent_on_delivery always reports the agent available. -/
theorem free_agent_available (order_id : String) (a : DeliveryAgent) :
    (free_agent_on_delivery order_id a).available = true := by
  unfold free_agent_on_delivery
  by_cases h1 : a.current_order = some order_id <;> simp [h1] <;> split <;> rfl

/-- free_agent_on_delivery clears current_order exactly when it named
this order. -/
theorem free_agent_current_order (order_id : String) (a : DeliveryAgent) :
    (free_agent_on_delivery order_id a).current_order =
      if a.current_order = some order_id then none else a.current_order := by
  unfold free_agent_on_delivery
  by_cases h1 : a.current_order = some order_id <;> simp [h1] <;> split <;> rfl

/-- Invariant preservation through the tail of create_order: it only
touches orders, customers and restaurants. -/
theorem agentInv_create_order_finish (s : DataStore)
    (customer_id restaurant_id : String) (o : Order) (h : AgentInv s) :
    AgentInv (create_order_finish s customer_id restaurant_id o).state := by
  unfold create_order_finish
  dsimp only
  split
  · exact h
  · exact h

/-- C8 amended: the agent invariant (available is false whenever
current_assignment is set) is preserved by order placement (with or
without assignment), by cancellation, by duty toggling, and by
update_status provided the assigned agent's current assignment - if any -
is the very order being updated. The proviso is forced: update_status on
a stale order (e.g. one cancelled earlier whose agent was meanwhile
re-assigned) marks the agent available without clearing its new
assignment, breaking the invariant (see the counterexample). -/
theorem agent_invariant_preservation (s : DataStore) (hinv : AgentInv s) :
    (∀ customer_id restaurant_id sels ot now oid,
      AgentInv (create_order s customer_id restaurant_id sels ot now oid).state) ∧
    (∀ order_id, AgentInv (cancel_order s order_id).2) ∧
    (∀ agent_id, AgentInv (toggle_delivery_agent_duty s agent_id).state) ∧
    (∀ order_id new_status user_id,
      (∀ o aid ag, alookup s.orders order_id = some o →
        o.delivery_agent_id = some aid →
        alookup s.delivery_agents aid = some ag →
        ag.current_order ≠ none → ag.current_order = some order_id) →
      AgentInv (update_order_status s order_id new_status user_id).2) := by
  refine ⟨?_, ?_, ?_, ?_⟩
  · intro customer_id restaurant_id sels ot now oid
    unfold create_order
    by_cases h1 : (alookup s.restaurants restaurant_id).isNone
    · simp only [h1, if_true]
      exact hinv
    · simp only [h1, if_false]
      by_cases h2 : ot = OrderType.delivery ∧
          firstAvailableAgent s.delivery_agents = none
      · simp only [h2, if_true]
        exact hinv
      · simp only [h2, if_false]
        cases hr : alookup s.restaurants restaurant_id with
        | none => exact hinv
        | some restaurant =>
          by_cases h3 : (sels.find? (fun sel =>
              (alookup restaurant.menu_items sel.item_id).isNone)).isSome
          · simp only [h3, if_true]
            exact hinv
          · simp only [h3, if_false]
            cases hmk : Order.init oid customer_id restaurant_id
                (sels.map (fun sel =>
                  { menu_item := (alookup restaurant.menu_items sel.item_id).getD 0,
                    quantity := sel.quantity }))
                ot now s.heap with
            | none => exact hinv
            | some order =>
              by_cases h4 : ot = OrderType.delivery
              · simp only [h4, if_true]
                unfold assign_delivery_agent
                cases hfa : firstAvailableAgent s.delivery_agents with
                | none => exact hinv
                | some pair =>
                  obtain ⟨aid, ag⟩ := pair
                  apply agentInv_create_order_finish
                  exact agentListInv_aupdate hinv aid _
                    (fun v _ _ => rfl)
              · simp only [h4, if_false]
                exact agentInv_create_order_finish s customer_id
                  restaurant_id order hinv
  · intro order_id
    unfold cancel_order
    dsimp only
    split
    · exact hinv
    · split
      · split
        · exact hinv
        · split
          · exact hinv
          · exact agentListInv_aupdate hinv _ _ (fun v _ hc => absurd rfl hc)
      · exact hinv
  · intro agent_id
    unfold toggle_delivery_agent_duty
    split
    · exact hinv
    · split
      · exact hinv
      · split
        · exact hinv
        · exact agentListInv_aupdate hinv agent_id _
            (fun v hv hc => hinv (agent_id, v) (alookup_mem hv) hc)
  · intro order_id new_status user_id hstale
    unfold update_order_status
    dsimp only
    split
    · exact hinv
    · rename_i order ho
      split
      · exact hinv
      · split
        · exact hinv
        · split
          · split
            · exact hinv
            · rename_i aid hda
              split
              · exact hinv
              · apply agentListInv_aupdate hinv aid
                intro v hv hc
                exfalso
                have hcur := hstale order aid v ho hda hv
                rw [free_agent_current_order] at hc
                by_cases h5 : v.current_order = some order_id
                · rw [if_pos h5] at hc
                  exact hc rfl
                · rw [if_neg h5] at hc
                  exact h5 (hcur hc)
          · exact hinv

/-- The order-A store after cancelling A (agent g1 freed). -/
def storeAfterCancelA : DataStore := (cancel_order storeWithOrderA "A").2

/-- The store after g1 is re-assigned to the new delivery order B. -/
def storeWithOrderB : DataStore :=
  (create_order storeAfterCancelA "c1" "r1"
    [{ item_id := "P1", quantity := 1 }] OrderType.delivery 5 "B").state

/-- The store after the stale cancelled order A is marked DELIVERED. -/
def storeBrokenInv : DataStore :=
  (update_order_status storeWithOrderB "A" OrderStatus.delivered none).2

/-- C8 counterexample: the claim asserts the invariant after every order
service operation. The reachable sequence place A, cancel A, place B
(re-assigning agent g1), then update_status A to DELIVERED - each step a
genuine service call that succeeds - leaves g1 available while still
assigned to B, so the invariant fails. -/
theorem agent_invariant_counterexample :
    (cancel_order storeWithOrderA "A").1 = true ∧
    (update_order_status storeWithOrderB "A" OrderStatus.delivered none).1 =
      true ∧
    (alookup storeBrokenInv.delivery_agents "g1").map
        (fun a => (a.available, a.current_order)) = some (true, some "B") ∧
    ¬ AgentInv storeBrokenInv := by
  refine ⟨rfl, rfl, rfl, ?_⟩
  decide

/-- C8 witness: the preservation theorem applied to the base store, whose
single fresh agent satisfies the invariant; the cancellation branch is
instantiated at order id A. -/
theorem agent_invariant_preservation_witness :
    AgentInv (cancel_order baseStore "A").2 :=
  (agent_invariant_preservation baseStore (by decide)).2.1 "A"

end FoodDelivery
